import Mathlib

/-!
# Arkanoid: a shallow embedding of the game orchestration and brick sprite

This file embeds the Python sources `arkanoid/game.py` and
`arkanoid/sprites/brick.py` of the `arkanoid` repository into Lean, and
proves (or refutes) the specification claims about them.

Conventions of the embedding:
* Pure data and mutating methods become Lean structures and state-passing
  functions.  A Python method `self.f(...)` that mutates `self` becomes a
  Lean function returning the updated structure.
* `pygame` surfaces/images are abstracted to identifiers (`Nat`); the claims
  never inspect pixel content, only identity and bookkeeping of blits.
* Wall-clock time (`pygame.time.get_ticks()`) is passed in explicitly as a
  `Nat` number of milliseconds.
* Python floats that the claims compare only for equality/arithmetic on
  exact constants are modelled as rationals.
* The classes `Ball`, `Paddle` and the `Round` classes are part of this
  repository but are not under `src/`; where a claim needs their behaviour
  they are modelled from the spec (each such definition carries a
  `Modelled from the spec:` doc comment).  `game.py` and `brick.py` are
  translated directly from the source.
-/

namespace Arkanoid

/-! ## Module-level constants of `game.py` (lines 15-37) -/

/-- `GAME_SPEED = 60` : the speed the game runs at in FPS. -/
def GAME_SPEED : Nat := 60

/-- `BALL_START_ANGLE_RAD = 5.0` : the angle the ball initially moves off the
paddle, in radians (exact constant, modelled as a rational). -/
def BALL_START_ANGLE_RAD : ℚ := 5

/-- `BALL_BASE_SPEED = 8` : the speed that the ball will always try to arrive
at (pixels per frame). -/
def BALL_BASE_SPEED : ℚ := 8

/-- `BALL_MAX_SPEED = 15` : the max speed of the ball. -/
def BALL_MAX_SPEED : ℚ := 15

/-- `BALL_SPEED_NORMALISATION_RATE = 0.02` : per-frame rate at which the ball
is brought back to base speed. -/
def BALL_SPEED_NORMALISATION_RATE : ℚ := 1/50

/-- `BRICK_SPEED_ADJUST = 0.5` : increase in speed caused by colliding with a
brick. -/
def BRICK_SPEED_ADJUST : ℚ := 1/2

/-- `WALL_SPEED_ADJUST = 0.2` : increase in speed caused by colliding with a
wall. -/
def WALL_SPEED_ADJUST : ℚ := 1/5

/-- `PADDLE_SPEED = 10` : the speed the paddle moves. -/
def PADDLE_SPEED : Int := 10

/-! ## The `Brick` sprite (`arkanoid/sprites/brick.py`) -/

/-- The value of the Python attribute `Brick._animate`, which ranges over the
three Python values `False` (initial), `True` (set by `Brick.animate()`) and
`None` (set when the animation iterator is exhausted).  In the Python test
`if self._animate:` only `True` is truthy. -/
inductive AnimFlag where
  | off
  | on
  | done
deriving DecidableEq

/-- The state of a `Brick` (`brick.py` lines 15-67).  Images are abstracted
to identifiers.  `animation` models the Python iterator `self._animation`:
`none` is Python `None` (iterator not yet created) and `some l` is a live
iterator whose remaining elements are `l`.  Note that in Python an exhausted
list iterator is still truthy, which `some []` models faithfully. -/
structure Brick where
  colour : String
  value : Nat
  image : Nat
  imageSequence : List Nat
  animation : Option (List Nat)
  destroy_after : Nat
  collision_count : Nat
  powerup_cls : Option Nat
  animateFlag : AnimFlag
deriving DecidableEq

/-- `Brick.__init__` (`brick.py` lines 15-67).  `image` is the graphic loaded
by `load_png('brick_<colour>')` and `silverSeq` the list of images loaded by
`load_png_sequence('brick_silver')`; the original colour image is appended as
the final element of the animation sequence (lines 52-54). -/
def Brick.init (colour : String) (value destroy_after : Nat)
    (powerup_cls : Option Nat) (image : Nat) (silverSeq : List Nat) : Brick :=
  { colour := colour
    value := value
    image := image
    imageSequence := silverSeq ++ [image]
    animation := none
    destroy_after := destroy_after
    collision_count := 0
    powerup_cls := powerup_cls
    animateFlag := AnimFlag.off }

/-- `Brick.update` (`brick.py` lines 69-76): if `self._animate` is truthy,
lazily create the iterator over `self._image_sequence`, then advance it; on
`StopIteration` set `self._animate = None` (the exhausted iterator itself is
kept and never reset). -/
def Brick.update (b : Brick) : Brick :=
  match b.animateFlag with
  | AnimFlag.on =>
    let seq := match b.animation with
      | none => b.imageSequence
      | some s => s
    match seq with
    | [] => { b with animateFlag := AnimFlag.done, animation := some [] }
    | x :: xs => { b with image := x, animation := some xs }
  | _ => b

/-- `Brick.visible` (`brick.py` lines 78-86): whether the brick is still
visible based on its collision count. -/
def Brick.visible (b : Brick) : Bool :=
  b.collision_count < b.destroy_after

/-- `Brick.animate` (`brick.py` lines 88-90): trigger animation of this
brick by setting `self._animate = True`. -/
def Brick.animate (b : Brick) : Brick :=
  { b with animateFlag := AnimFlag.on }

/-- Iterate `Brick.update` a number of times. -/
def brickIter : Nat → Brick → Brick
  | 0, b => b
  | Nat.succ k, b => brickIter k b.update

/-- An externally observable operation on a brick: either `update()` or
`animate()`. -/
inductive BrickOp where
  | update
  | animate
deriving DecidableEq

/-- Apply a list of brick operations in order. -/
def applyBrickOps : List BrickOp → Brick → Brick
  | [], b => b
  | BrickOp.update :: rest, b => applyBrickOps rest b.update
  | BrickOp.animate :: rest, b => applyBrickOps rest b.animate

/-! ## Collidable objects and the ball's registry

The `Ball` class lives in `arkanoid/sprites/ball.py`, which is not under
`src/`; its registry operations are modelled from the spec (sections 3
and 4.2). -/

/-- A reference to an object registered with the ball.  Python identifies
objects by reference; wall edges and bricks belong to a particular round
instance, which we model by tagging them with the allocation id of that
round (fresh rounds get fresh ids). -/
inductive CollidableRef where
  | wall (roundId idx : Nat)
  | paddleRef
  | brickRef (roundId idx : Nat)
deriving DecidableEq

/-- Modelled from the spec: a registry entry holds the collidable reference,
an optional speed adjust (default 0), an optional bounce strategy and an
optional collision callback.  The only bounce strategy the game ever wires
is the paddle's, and the only collision callback is `Game._on_brick_collide`,
so their presence is recorded as booleans. -/
structure CollidableEntry where
  obj : CollidableRef
  speed_adjust : ℚ
  has_bounce_strategy : Bool
  has_on_collide : Bool
deriving DecidableEq

/-- The state of the ball (spec section 3, `Ball` data model).  `anchor` is
`some offset` when the ball is anchored to the paddle with that offset. -/
structure BallState where
  visible : Bool
  x : Int
  y : Int
  angle : ℚ
  speed : ℚ
  base_speed : ℚ
  max_speed : ℚ
  normalisation_rate : ℚ
  anchor : Option (Int × Int)
  registry : List CollidableEntry
deriving DecidableEq

/-- Modelled from the spec: `Ball.add_collidable_object` registers a new
collidable entry (spec 4.2). -/
def BallState.add_collidable_object (b : BallState) (obj : CollidableRef)
    (speed_adjust : ℚ) (has_bounce : Bool) (has_on_collide : Bool) : BallState :=
  { b with registry := b.registry ++
      [{ obj := obj, speed_adjust := speed_adjust,
         has_bounce_strategy := has_bounce, has_on_collide := has_on_collide }] }

/-- Modelled from the spec: `Ball.remove_collidable_object` unregisters the
entry for the given object; no-op if absent (spec 4.2). -/
def BallState.remove_collidable_object (b : BallState) (obj : CollidableRef) :
    BallState :=
  { b with registry := b.registry.eraseP (fun e => e.obj == obj) }

/-- Modelled from the spec: `Ball.remove_all_collidable_objects` clears the
registry (spec 4.2, used on round transition). -/
def BallState.remove_all_collidable_objects (b : BallState) : BallState :=
  { b with registry := [] }

/-- Modelled from the spec: `Ball.anchor(object, offset)` enters anchored
mode; velocity updates are suspended (spec 4.2).  The game only ever anchors
the ball to the paddle, so the anchor records just the offset. -/
def BallState.anchorTo (b : BallState) (offset : Int × Int) : BallState :=
  { b with anchor := some offset }

/-- Modelled from the spec: `Ball.release(angle)` leaves anchored mode and
sets the velocity to `(angle, base_speed)` (spec 4.2). -/
def BallState.release (b : BallState) (angle : ℚ) : BallState :=
  { b with anchor := none, angle := angle, speed := b.base_speed }

/-- Clamp a speed into `[0, maxSpeed]` (spec 3: speed is always clamped). -/
def clampSpeed (s maxSpeed : ℚ) : ℚ := max 0 (min s maxSpeed)

/-- Modelled from the spec: per-frame speed normalisation moves the current
speed toward `base` by `rate`, never overshooting (spec 4.2 and glossary). -/
def normaliseSpeed (s base rate : ℚ) : ℚ :=
  if s > base then max base (s - rate)
  else if s < base then min base (s + rate)
  else s

/-! ## The paddle

`arkanoid/sprites/paddle.py` is not under `src/`; the paddle controller is
modelled from the spec (section 4.4). -/

/-- The paddle's movement state (spec 4.4: stationary, moving-left or
moving-right). -/
inductive MoveDir where
  | stationary
  | left
  | right
deriving DecidableEq

/-- Modelled from the spec: the paddle's state (spec 3, `Paddle` data
model): position/rectangle, movement state, speed and horizontal bounds. -/
structure PaddleState where
  visible : Bool
  x : Int
  y : Int
  minX : Int
  maxX : Int
  speed : Int
  width : Int
  height : Int
  dir : MoveDir
deriving DecidableEq

/-- Modelled from the spec: `Paddle.move_left` sets directional intent. -/
def PaddleState.move_left (p : PaddleState) : PaddleState :=
  { p with dir := MoveDir.left }

/-- Modelled from the spec: `Paddle.move_right` sets directional intent. -/
def PaddleState.move_right (p : PaddleState) : PaddleState :=
  { p with dir := MoveDir.right }

/-- Modelled from the spec: `Paddle.stop` halts the paddle. -/
def PaddleState.stop (p : PaddleState) : PaddleState :=
  { p with dir := MoveDir.stationary }

/-- Modelled from the spec: `Paddle.update` applies the current directional
speed to the position, clamped to the playable horizontal bounds
(spec 4.4). -/
def PaddleState.update (p : PaddleState) : PaddleState :=
  match p.dir with
  | MoveDir.stationary => p
  | MoveDir.left => { p with x := max p.minX (p.x - p.speed) }
  | MoveDir.right => { p with x := min p.maxX (p.x + p.speed) }

/-! ## Rounds

The `Round` classes live in `arkanoid/rounds.py`, which is not under `src/`;
they are modelled from the spec (sections 3 and 4.5). -/

/-- Modelled from the spec: a round class (e.g. `Round1`) describes a level
layout: its boundary edges, its bricks, a caption, and the next round
class.  `next` is `none` for a final round with no successor. -/
inductive RoundClass where
  | mk (edgeCount : Nat) (bricks : List Brick) (caption : String)
       (next : Option RoundClass)

/-- The number of boundary edges of the round layout. -/
def RoundClass.edgeCount : RoundClass → Nat
  | RoundClass.mk e _ _ _ => e

/-- The bricks of the round layout. -/
def RoundClass.bricks : RoundClass → List Brick
  | RoundClass.mk _ b _ _ => b

/-- The caption of the round layout. -/
def RoundClass.caption : RoundClass → String
  | RoundClass.mk _ _ c _ => c

/-- The next round class of the round layout. -/
def RoundClass.next : RoundClass → Option RoundClass
  | RoundClass.mk _ _ _ n => n

/-- Modelled from the spec: a round instance (spec 3, `Round` data model):
bricks plus boundary edges, a remaining-brick count, a complete flag and a
reference to the next round class.  `id` models Python object identity of
the round instance (fresh instances get fresh ids). -/
structure RoundState where
  id : Nat
  edgeCount : Nat
  bricks : List Brick
  bricksRemaining : Nat
  complete : Bool
  caption : String
  next_round : Option RoundClass

/-- Modelled from the spec: instantiating a round class produces a round
whose remaining-brick count is its brick count and which is complete when
there are no destructible bricks. -/
def makeRound (rc : RoundClass) (id : Nat) : RoundState :=
  { id := id
    edgeCount := rc.edgeCount
    bricks := rc.bricks
    bricksRemaining := rc.bricks.length
    complete := rc.bricks.length == 0
    caption := rc.caption
    next_round := rc.next }

/-- Modelled from the spec: `Round.brick_destroyed()` decrements the
remaining-brick count; the round transitions to complete when the last
destructible brick is gone (spec 3 and 4.5). -/
def RoundState.brick_destroyed (r : RoundState) : RoundState :=
  let rem := r.bricksRemaining - 1
  { r with bricksRemaining := rem, complete := rem == 0 }

/-! ## The game (`arkanoid/game.py`) -/

/-- The state of a `GameStartSequence` instance (`game.py` lines 294-325):
beyond references to the game it animates, it owns only the restart flag and
its activation timestamp. -/
structure GameStartSequence where
  restart : Bool
  start_time : Nat
deriving DecidableEq

/-- A keyboard/window event, as recognised by `Arkanoid.main_loop` and
`Game._handle_events` (`game.py` lines 69-71 and 210-219). -/
inductive GEvent where
  | quit
  | keyDownLeft
  | keyDownRight
  | keyUpLeft
  | keyUpRight
  | other
deriving DecidableEq

/-- An entry of the frame's operation trace.  The trace records, in
execution order, the externally visible operations a frame performs; the
state-transition functions below emit it alongside the new state. -/
inductive Op where
  | applyInput (e : GEvent)
  | eraseBlit
  | drawBlit
  | paddleUpdate
  | ballUpdate
  | updateLives
  | presentFrame
  | clockTick
  | seqUpdated
  | roundTransition
  | removeCollidable
  | brickDestroyedNotify
  | offScreenCallback
deriving DecidableEq

/-- The state of a `Game` (`game.py` lines 99-146).  `captionVisible` models
whether the round caption text currently stands on the screen (the blits of
`GameStartSequence.update`).  `nextRoundId` is the allocation counter
providing fresh identities for round instances. -/
structure GameState where
  score : Nat
  lives : Nat
  paddle : PaddleState
  ball : BallState
  round : RoundState
  active_powerup : Option Nat
  over : Bool
  sequence : Option GameStartSequence
  captionVisible : Bool
  nextRoundId : Nat

/-- The per-frame external inputs of one loop iteration: the wall-clock time
in milliseconds, the polled event list, and the physics oracle saying which
registry entry (if any) the ball's collision detection resolved this frame
and whether the ball went off screen.  The oracle stands for the geometric
part of `Ball.update`, which is not under `src/`. -/
structure FrameInput where
  now : Nat
  events : List GEvent
  ballCollision : Option Nat
  ballOffScreen : Bool

/-- `Game._on_brick_collide` (`game.py` lines 239-259): tell the ball the
brick has gone, tell the round a brick has gone, and erase the brick from
the screen.  Note the source neither increments the brick's
`collision_count` nor consults `destroy_after`/`visible`, and it never
touches `score`. -/
def Game.on_brick_collide (g : GameState) (brick : CollidableRef) :
    GameState × List Op :=
  let g1 := { g with ball := g.ball.remove_collidable_object brick }
  let g2 := { g1 with round := g1.round.brick_destroyed }
  (g2, [Op.removeCollidable, Op.brickDestroyedNotify, Op.eraseBlit])

/-- `Game._off_screen` (`game.py` lines 278-286): the life-loss/restart
wiring is entirely commented out, so the callback body is empty and the
game state is returned unchanged. -/
def Game.off_screen (g : GameState) : GameState := g

/-- `Game._new_round` (`game.py` lines 180-208): instantiate the round
class, clear the ball's collidable registry, then re-add the new round's
edges (each with the wall speed adjust), the paddle (with its bounce
strategy) and the new round's bricks (each with the brick speed adjust and
the brick-collision callback). -/
def Game.new_round (g : GameState) (rc : RoundClass) : GameState :=
  let rid := g.nextRoundId
  let round_ := makeRound rc rid
  let ball0 := g.ball.remove_all_collidable_objects
  let ball1 := (List.range round_.edgeCount).foldl
    (fun b i => b.add_collidable_object (CollidableRef.wall rid i)
      WALL_SPEED_ADJUST false false) ball0
  let ball2 := ball1.add_collidable_object CollidableRef.paddleRef 0 true false
  let ball3 := (List.range round_.bricks.length).foldl
    (fun b i => b.add_collidable_object (CollidableRef.brickRef rid i)
      BRICK_SPEED_ADJUST false true) ball2
  { g with ball := ball3, round := round_, nextRoundId := rid + 1 }

/-- `Game._handle_events` (`game.py` lines 210-219): arrow-key KEYDOWN
events move the paddle, arrow-key KEYUP events stop it; other events are
ignored. -/
def Game.handle_events : GameState → List GEvent → GameState × List Op
  | g, [] => (g, [])
  | g, e :: rest =>
    let g1 := match e with
      | GEvent.keyDownLeft => { g with paddle := g.paddle.move_left }
      | GEvent.keyDownRight => { g with paddle := g.paddle.move_right }
      | GEvent.keyUpLeft => { g with paddle := g.paddle.stop }
      | GEvent.keyUpRight => { g with paddle := g.paddle.stop }
      | _ => g
    let emitted : List Op := match e with
      | GEvent.keyDownLeft => [Op.applyInput e]
      | GEvent.keyDownRight => [Op.applyInput e]
      | GEvent.keyUpLeft => [Op.applyInput e]
      | GEvent.keyUpRight => [Op.applyInput e]
      | _ => []
    let next := Game.handle_events g1 rest
    (next.1, emitted ++ next.2)

/-- The ball's `update()` as it runs inside the game frame.  Modelled from
the spec (section 4.2): if anchored, recompute the position from the anchor
and return without physics; otherwise resolve at most one collision this
frame (per the physics oracle), applying the entry's speed adjust (clamped)
and invoking its collision callback (the game wires
`Game._on_brick_collide`), then apply speed normalisation, then invoke the
off-screen callback (the game wires `Game._off_screen`) if the ball left
the screen. -/
def Game.ball_update (g : GameState) (fi : FrameInput) : GameState × List Op :=
  match g.ball.anchor with
  | some off =>
    ({ g with ball := { g.ball with x := g.paddle.x + off.1,
                                    y := g.paddle.y + off.2 } },
     [Op.ballUpdate])
  | none =>
    let step1 : GameState × List Op :=
      match fi.ballCollision with
      | none => (g, [])
      | some i =>
        match g.ball.registry[i]? with
        | none => (g, [])
        | some entry =>
          let gb := { g with ball := { g.ball with
            speed := clampSpeed (g.ball.speed + entry.speed_adjust)
              g.ball.max_speed } }
          if entry.has_on_collide then Game.on_brick_collide gb entry.obj
          else (gb, [])
    let g2 := { step1.1 with ball := { step1.1.ball with
      speed := normaliseSpeed step1.1.ball.speed step1.1.ball.base_speed
        step1.1.ball.normalisation_rate } }
    let step3 : GameState × List Op :=
      if fi.ballOffScreen then (Game.off_screen g2, [Op.offScreenCallback])
      else (g2, [])
    (step3.1, Op.ballUpdate :: (step1.2 ++ step3.2))

/-- `Game._update_sprites` (`game.py` lines 221-237): erase the previous
sprite locations, update the paddle and redraw it if visible, then update
the ball and redraw it if visible. -/
def Game.update_sprites (g : GameState) (fi : FrameInput) :
    GameState × List Op :=
  let g1 := { g with paddle := g.paddle.update }
  let t1 := [Op.eraseBlit, Op.eraseBlit, Op.paddleUpdate]
    ++ (if g1.paddle.visible then [Op.drawBlit] else [])
  let stepBall := Game.ball_update g1 fi
  let t3 := if stepBall.1.ball.visible then [Op.drawBlit] else []
  (stepBall.1, t1 ++ stepBall.2 ++ t3)

/-- `Game._update_lives` (`game.py` lines 261-276): erase and redraw the
remaining-lives graphics (`lives - 1` of them).  Pure screen bookkeeping;
the game state is unchanged. -/
def Game.update_lives (g : GameState) : GameState × List Op :=
  (g, [Op.updateLives])

/-- `GameStartSequence.__init__` (`game.py` lines 294-325) together with the
assignment `self.sequence = GameStartSequence(self)` that activates it
(`game.py` line 141): record the activation timestamp, hide the paddle and
the ball, and anchor the ball to the paddle with offset
`(paddle_width // 2, -paddle_height)`. -/
def GameStartSequence.init (g : GameState) (restart : Bool) (now : Nat) :
    GameState :=
  let paddle_width := g.paddle.width
  let paddle_height := g.paddle.height
  let g1 := { g with paddle := { g.paddle with visible := false } }
  let b1 := { g1.ball with visible := false }
  let g2 := { g1 with ball := b1.anchorTo (paddle_width / 2, -paddle_height) }
  { g2 with sequence := some { restart := restart, start_time := now } }

/-- `GameStartSequence.update` (`game.py` lines 327-348), with
`_time_elapsed` (lines 346-348) inlined as `now - start_time`: after more
than 1000ms blit the caption; after more than 3000ms log the ready message
(no state change); after more than 3500ms make the paddle and ball visible;
after more than 5500ms erase the caption text, release the ball anchor with
`BALL_START_ANGLE_RAD` and unset the game's sequence. -/
def GameStartSequence.update (g : GameState) (s : GameStartSequence)
    (now : Nat) : GameState :=
  let elapsed := now - s.start_time
  let g1 := if elapsed > 1000 then { g with captionVisible := true } else g
  let g2 := if elapsed > 3500 then
      { g1 with paddle := { g1.paddle with visible := true },
                ball := { g1.ball with visible := true } }
    else g1
  if elapsed > 5500 then
    { g2 with captionVisible := false,
              ball := g2.ball.release BALL_START_ANGLE_RAD,
              sequence := none }
  else g2

/-- The round-transition step opening `Game.update` (`game.py` lines
169-170): when the current round is complete, replace it with an instance
of `self.round.next_round` via `Game._new_round`.  A round with no
successor defined would make the Python attribute lookup fail; the model
leaves the state unchanged in that (never-exercised) case. -/
def Game.update_round_stage (g : GameState) : GameState × List Op :=
  if g.round.complete then
    match g.round.next_round with
    | some rc => (Game.new_round g rc, [Op.roundTransition])
    | none => (g, [])
  else (g, [])

/-- The sequence-delegation step of `Game.update` (`game.py` lines 172-174):
if a game sequence is set, delegate to it. -/
def Game.update_sequence_stage (g : GameState) (now : Nat) :
    GameState × List Op :=
  match g.sequence with
  | some s => (GameStartSequence.update g s now, [Op.seqUpdated])
  | none => (g, [])

/-- `Game.update` (`game.py` lines 161-178): round transition, sequence
delegation, event handling, sprite updates, lives bookkeeping — in that
order. -/
def Game.update (g : GameState) (fi : FrameInput) : GameState × List Op :=
  let s1 := Game.update_round_stage g
  let s2 := Game.update_sequence_stage s1.1 fi.now
  let s3 := Game.handle_events s2.1 fi.events
  let s4 := Game.update_sprites s3.1 fi
  let s5 := Game.update_lives s4.1
  (s5.1, s1.2 ++ s2.2 ++ s3.2 ++ s4.2 ++ s5.2)

/-- `Game.__init__` (`game.py` lines 99-146): start with score 0 and the
given number of lives, build the paddle and the ball (visible, with the
constants of `game.py`), build the first round and populate the ball's
registry via `_new_round`, set `over` to `False`, and activate a
`GameStartSequence`.  The geometric parameters stand for the loaded edge
image width, the paddle graphic's dimensions and the screen width. -/
def Game.init (round_class : RoundClass) (lives : Nat)
    (edgeWidth paddleWidth paddleHeight screenW : Int) (now : Nat) :
    GameState :=
  let paddle : PaddleState :=
    { visible := true
      x := (screenW - paddleWidth) / 2
      y := 0
      minX := edgeWidth
      maxX := screenW - edgeWidth - paddleWidth
      speed := PADDLE_SPEED
      width := paddleWidth
      height := paddleHeight
      dir := MoveDir.stationary }
  let ball : BallState :=
    { visible := true
      x := paddle.x + paddleWidth / 2
      y := 0
      angle := BALL_START_ANGLE_RAD
      speed := BALL_BASE_SPEED
      base_speed := BALL_BASE_SPEED
      max_speed := BALL_MAX_SPEED
      normalisation_rate := BALL_SPEED_NORMALISATION_RATE
      anchor := none
      registry := [] }
  let g0 : GameState :=
    { score := 0
      lives := lives
      paddle := paddle
      ball := ball
      round := makeRound round_class 0
      active_powerup := none
      over := false
      sequence := none
      captionVisible := false
      nextRoundId := 0 }
  let g1 := Game.new_round g0 round_class
  GameStartSequence.init g1 false now

/-! ## The main loop (`game.py` lines 43-91) -/

/-- Whether the polled event list contains a `pygame.QUIT` event. -/
def hasQuitEvent (events : List GEvent) : Bool :=
  events.any (fun e => e == GEvent.quit)

/-- The fixed parameters of a program run: the starting round class
(`Round1`) and the geometry the `Game` constructor reads from the loaded
assets and the display. -/
structure ArkCfg where
  round1 : RoundClass
  edgeWidth : Int
  paddleWidth : Int
  paddleHeight : Int
  screenW : Int

/-- The result of one iteration of the `while running` loop. -/
structure LoopStep where
  game : GameState
  running : Bool
  trace : List Op

/-- One iteration of `Arkanoid.main_loop` (`game.py` lines 56-85), entered
with `running` true: tick the clock, poll events and clear `running` on a
QUIT event, create the game if none exists yet, run `Game.update`, clear
`running` if the game is over, and present the frame
(`pygame.display.flip`). -/
def main_loop_iter (cfg : ArkCfg) (g : Option GameState)
    (fi : FrameInput) : LoopStep :=
  let running0 := true
  let running1 := if hasQuitEvent fi.events then false else running0
  let g0 := match g with
    | none => Game.init cfg.round1 3 cfg.edgeWidth cfg.paddleWidth
        cfg.paddleHeight cfg.screenW fi.now
    | some gg => gg
  let upd := Game.update g0 fi
  let running2 := if upd.1.over then false else running1
  { game := upd.1
    running := running2
    trace := Op.clockTick :: (upd.2 ++ [Op.presentFrame]) }

/-- Run `Arkanoid.main_loop` over a finite schedule of frame inputs:
process iterations while `running` holds; the boolean result records
whether the loop was still running when the schedule ran out (`true`) or
the loop terminated on its own (`false`). -/
def runLoop (cfg : ArkCfg) :
    Option GameState → List FrameInput → Option GameState × Bool
  | g, [] => (g, true)
  | g, fi :: rest =>
    let st := main_loop_iter cfg g fi
    if st.running then runLoop cfg (some st.game) rest
    else (some st.game, false)

/-! ## Derived notions used by the statements -/

/-- The operations whose relative order the frame-ordering guarantee talks
about: input application, paddle update, ball update, lives bookkeeping and
frame presentation. -/
def isMarker (o : Op) : Bool :=
  match o with
  | Op.applyInput _ => true
  | Op.paddleUpdate => true
  | Op.ballUpdate => true
  | Op.updateLives => true
  | Op.presentFrame => true
  | _ => false

/-- The events `Game._handle_events` reacts to (arrow-key presses and
releases). -/
def isKeyEvent (e : GEvent) : Bool :=
  match e with
  | GEvent.keyDownLeft => true
  | GEvent.keyDownRight => true
  | GEvent.keyUpLeft => true
  | GEvent.keyUpRight => true
  | _ => false

/-- Build a registry entry (the record `add_collidable_object` appends). -/
def mkEntry (o : CollidableRef) (sa : ℚ) (hb hc : Bool) : CollidableEntry :=
  { obj := o, speed_adjust := sa, has_bounce_strategy := hb,
    has_on_collide := hc }

/-- The registry contents `Game._new_round` installs for a round instance
with id `rid` built from class `rc`: the wall edges (each with the wall
speed adjust), then the paddle (with its bounce strategy), then the bricks
(each with the brick speed adjust and the brick-collision callback). -/
def roundRegistry (rid : Nat) (rc : RoundClass) : List CollidableEntry :=
  ((List.range rc.edgeCount).map fun i =>
    mkEntry (CollidableRef.wall rid i) WALL_SPEED_ADJUST false false)
  ++ [mkEntry CollidableRef.paddleRef 0 true false]
  ++ ((List.range rc.bricks.length).map fun i =>
    mkEntry (CollidableRef.brickRef rid i) BRICK_SPEED_ADJUST false true)

/-- The round instance a collidable reference belongs to (`none` for the
paddle, which outlives rounds). -/
def CollidableRef.roundOf : CollidableRef → Option Nat
  | CollidableRef.wall r _ => some r
  | CollidableRef.paddleRef => none
  | CollidableRef.brickRef r _ => some r

/-- The element sequence the brick's animation iterator ranges over: the
iterator's remaining elements once created, the full image sequence before
that. -/
def seqOf (b : Brick) : List Nat := b.animation.getD b.imageSequence

/-! ## Sample data for concrete instances -/

/-- A sample one-hit brick. -/
def sampleBrick1 : Brick := Brick.init "green" 80 1 none 101 [1, 2]

/-- A sample two-hit brick (`destroy_after = 2`) worth 100 points. -/
def sampleBrick2 : Brick := Brick.init "silver" 100 2 none 102 [1, 2]

/-- A sample final round class. -/
def sampleRound2 : RoundClass := RoundClass.mk 3 [sampleBrick1] "ROUND 2" none

/-- A sample starting round class whose successor is `sampleRound2`. -/
def sampleRound1 : RoundClass :=
  RoundClass.mk 3 [sampleBrick1, sampleBrick2] "ROUND 1" (some sampleRound2)

/-- A sample program configuration. -/
def sampleCfg : ArkCfg :=
  { round1 := sampleRound1, edgeWidth := 16, paddleWidth := 60,
    paddleHeight := 16, screenW := 600 }

/-- A freshly constructed sample game (activated at time 0). -/
def sampleGame : GameState := Game.init sampleRound1 3 16 60 16 600 0

/-- The start sequence active in `sampleGame`. -/
def sampleSeq : GameStartSequence := { restart := false, start_time := 0 }

/-- `sampleGame` with its round marked complete, about to transition to
`sampleRound2`. -/
def sampleGameComplete : GameState :=
  { sampleGame with round := { sampleGame.round with complete := true } }

/-- A frame input carrying a QUIT event and nothing else. -/
def quitFrame : FrameInput :=
  { now := 0, events := [GEvent.quit], ballCollision := none,
    ballOffScreen := false }

/-- A frame input carrying no events and no physics outcomes. -/
def idleFrame : FrameInput :=
  { now := 0, events := [], ballCollision := none, ballOffScreen := false }

/-! ## Theorems for the claims -/

/-- C3: for every `Brick` and all values of `collision_count` and
`destroy_after`, `Brick.visible` returns `True` if and only if
`collision_count < destroy_after`: the visibility is derived from the hit
count, and flips to false exactly when the hit count reaches the
hits-required threshold. -/
theorem C3_brick_visible_iff (b : Brick) :
    b.visible = true ↔ b.collision_count < b.destroy_after := by
  simp [Brick.visible]

/-- C7: `Game._off_screen`, the off-screen callback the game wires into the
ball, leaves the entire game state unchanged when invoked: lives, score, the
over flag, the sequence, the round, the paddle and the ball are all exactly
as before the call (its life-loss/restart body is commented out). -/
theorem C7_off_screen_noop (g : GameState) :
    Game.off_screen g = g
    ∧ (Game.off_screen g).lives = g.lives
    ∧ (Game.off_screen g).score = g.score
    ∧ (Game.off_screen g).over = g.over
    ∧ (Game.off_screen g).sequence = g.sequence
    ∧ (Game.off_screen g).round = g.round
    ∧ (Game.off_screen g).paddle = g.paddle
    ∧ (Game.off_screen g).ball = g.ball :=
  ⟨rfl, rfl, rfl, rfl, rfl, rfl, rfl, rfl⟩

/-- C4 (code divergence): `Game._on_brick_collide` never touches the score:
for every game state and brick the score after the callback equals the score
before, and in particular destroying the 100-point sample brick leaves the
score at 0.  This contradicts the claim (and `Brick.value`'s own docstring)
that the brick's point value is added to the score. -/
theorem C4_no_score_update :
    (∀ (g : GameState) (b : CollidableRef),
      (Game.on_brick_collide g b).1.score = g.score)
    ∧ (Game.on_brick_collide sampleGame (CollidableRef.brickRef 0 1)).1.score
        = 0
    ∧ sampleBrick2.value = 100 :=
  ⟨fun _ _ => rfl, rfl, rfl⟩

/-- C2 (code divergence): in `sampleGame` the brick at index 1 of round 0
(`sampleBrick2`) needs `destroy_after = 2` strikes and has
`collision_count = 0`, so it is visible and registered; yet the very first
invocation of the brick-collision callback `Game._on_brick_collide` evicts
it from the ball's registry and invokes the round's `brick_destroyed`
notifier, leaving `collision_count` untouched.  This contradicts the claim
that the first collision leaves a two-hit brick registered, with eviction
and notification only at the second collision. -/
theorem C2_first_collision_evicts :
    sampleBrick2.destroy_after = 2
    ∧ sampleBrick2.collision_count = 0
    ∧ sampleBrick2.visible = true
    ∧ sampleGame.round.bricks.getD 1 sampleBrick1 = sampleBrick2
    ∧ sampleGame.ball.registry.any
        (fun e => e.obj == CollidableRef.brickRef 0 1) = true
    ∧ (Game.on_brick_collide sampleGame
        (CollidableRef.brickRef 0 1)).1.ball.registry.any
        (fun e => e.obj == CollidableRef.brickRef 0 1) = false
    ∧ (Game.on_brick_collide sampleGame (CollidableRef.brickRef 0 1)).2
        = [Op.removeCollidable, Op.brickDestroyedNotify, Op.eraseBlit]
    ∧ (Game.on_brick_collide sampleGame
        (CollidableRef.brickRef 0 1)).1.round.bricksRemaining + 1
        = sampleGame.round.bricksRemaining
    ∧ (Game.on_brick_collide sampleGame
        (CollidableRef.brickRef 0 1)).1.round.bricks
        = sampleGame.round.bricks := by
  refine ⟨rfl, rfl, rfl, ?_, ?_, ?_, rfl, rfl, rfl⟩ <;> decide

/-- C1 (counterexample to the claim as stated): in the freshly activated
`sampleGame` (sequence started at time 0), running the sequence update at
exactly 1000ms elapsed does not show the caption, at exactly 3500ms the
sprites are still invisible, and at exactly 5500ms the sequence is still
active and the ball still anchored — because `GameStartSequence.update`
uses strict comparisons, the transitions fire only once the elapsed time
strictly exceeds each threshold, not when it reaches it. -/
theorem C1_counterexample :
    (GameStartSequence.update sampleGame sampleSeq 1000).captionVisible = false
    ∧ (GameStartSequence.update sampleGame sampleSeq 3500).paddle.visible
        = false
    ∧ (GameStartSequence.update sampleGame sampleSeq 3500).ball.visible
        = false
    ∧ (GameStartSequence.update sampleGame sampleSeq 5500).sequence
        = some sampleSeq
    ∧ (GameStartSequence.update sampleGame sampleSeq 5500).ball.anchor
        = some (30, -16) := by
  refine ⟨?_, ?_, ?_, ?_, ?_⟩ <;> decide

/-- C1 (amended): at activation `GameStartSequence.__init__` hides the
paddle and the ball and anchors the ball to the paddle; then, driven only by
the elapsed time since activation, `update()` shows the caption once the
elapsed time strictly exceeds 1000ms, makes the paddle and ball visible once
it strictly exceeds 3500ms, and once it strictly exceeds 5500ms releases the
ball anchor with `BALL_START_ANGLE_RAD` and deactivates itself by setting
the game's sequence to `None`; in particular at t=1500 the caption is shown
and the sprites are still invisible, at t=4000 the sprites are visible, and
at t=6000 the sequence has deactivated and the ball has been released. -/
theorem C1_start_sequence_amended (g : GameState) (s : GameStartSequence)
    (t : Nat) (hseq : g.sequence = some s) (hp : g.paddle.visible = false)
    (hb : g.ball.visible = false) :
    (∀ (g0 : GameState) (r : Bool) (n0 : Nat),
      (GameStartSequence.init g0 r n0).paddle.visible = false
      ∧ (GameStartSequence.init g0 r n0).ball.visible = false
      ∧ (GameStartSequence.init g0 r n0).ball.anchor
          = some (g0.paddle.width / 2, -g0.paddle.height)
      ∧ (GameStartSequence.init g0 r n0).sequence
          = some { restart := r, start_time := n0 })
    ∧ (1000 < t → t ≤ 5500 →
        (GameStartSequence.update g s (s.start_time + t)).captionVisible
          = true)
    ∧ (t ≤ 1000 →
        (GameStartSequence.update g s (s.start_time + t)).captionVisible
          = g.captionVisible)
    ∧ (3500 < t →
        (GameStartSequence.update g s (s.start_time + t)).paddle.visible
          = true
        ∧ (GameStartSequence.update g s (s.start_time + t)).ball.visible
          = true)
    ∧ (t ≤ 3500 →
        (GameStartSequence.update g s (s.start_time + t)).paddle.visible
          = false
        ∧ (GameStartSequence.update g s (s.start_time + t)).ball.visible
          = false)
    ∧ (5500 < t →
        (GameStartSequence.update g s (s.start_time + t)).sequence = none
        ∧ (GameStartSequence.update g s (s.start_time + t)).ball.anchor
          = none
        ∧ (GameStartSequence.update g s (s.start_time + t)).ball.angle
          = BALL_START_ANGLE_RAD
        ∧ (GameStartSequence.update g s (s.start_time + t)).ball.speed
          = g.ball.base_speed)
    ∧ (t ≤ 5500 →
        (GameStartSequence.update g s (s.start_time + t)).sequence = some s
        ∧ (GameStartSequence.update g s (s.start_time + t)).ball.anchor
          = g.ball.anchor
        ∧ (GameStartSequence.update g s (s.start_time + t)).ball.angle
          = g.ball.angle) := by
  have he : s.start_time + t - s.start_time = t := by omega
  refine ⟨fun g0 r n0 => ⟨rfl, rfl, rfl, rfl⟩, ?_, ?_, ?_, ?_, ?_, ?_⟩ <;>
    simp only [GameStartSequence.update, he, BallState.release] <;>
    intros <;> split_ifs <;> simp_all <;> omega

/-- C1 witness: the amended theorem applied to the freshly activated sample
game at t=1500, t=4000 and t=6000. -/
theorem C1_start_sequence_witness :
    ((GameStartSequence.update sampleGame sampleSeq (0 + 1500)).captionVisible
       = true
     ∧ (GameStartSequence.update sampleGame sampleSeq
         (0 + 1500)).paddle.visible = false)
    ∧ (GameStartSequence.update sampleGame sampleSeq (0 + 4000)).paddle.visible
       = true
    ∧ (GameStartSequence.update sampleGame sampleSeq (0 + 6000)).sequence
       = none
    ∧ (GameStartSequence.update sampleGame sampleSeq (0 + 6000)).ball.anchor
       = none
    ∧ (GameStartSequence.update sampleGame sampleSeq (0 + 6000)).ball.angle
       = BALL_START_ANGLE_RAD :=
  ⟨⟨((C1_start_sequence_amended sampleGame sampleSeq 1500 rfl rfl
        rfl).2.1) (by decide) (by decide),
    (((C1_start_sequence_amended sampleGame sampleSeq 1500 rfl rfl
        rfl).2.2.2.2.1) (by decide)).1⟩,
   (((C1_start_sequence_amended sampleGame sampleSeq 4000 rfl rfl
        rfl).2.2.2.1) (by decide)).1,
   (((C1_start_sequence_amended sampleGame sampleSeq 6000 rfl rfl
        rfl).2.2.2.2.2.1) (by decide)).1,
   (((C1_start_sequence_amended sampleGame sampleSeq 6000 rfl rfl
        rfl).2.2.2.2.2.1) (by decide)).2.1,
   (((C1_start_sequence_amended sampleGame sampleSeq 6000 rfl rfl
        rfl).2.2.2.2.2.1) (by decide)).2.2.1⟩

/-- Folding `add_collidable_object` over a list of indices appends the
corresponding entries to the registry. -/
lemma registry_foldl_add (l : List Nat) (b : BallState)
    (mk : Nat → CollidableRef) (sa : ℚ) (hb hc : Bool) :
    ((l.foldl (fun acc i => acc.add_collidable_object (mk i) sa hb hc)
        b).registry)
      = b.registry ++ l.map (fun i => mkEntry (mk i) sa hb hc) := by
  induction l generalizing b with
  | nil => simp
  | cons x xs ih =>
    rw [List.foldl_cons, ih]
    simp [BallState.add_collidable_object, mkEntry]

/-- `add_collidable_object` appends exactly one entry to the registry. -/
lemma add_collidable_registry (b : BallState) (o : CollidableRef) (sa : ℚ)
    (hb hc : Bool) :
    (b.add_collidable_object o sa hb hc).registry
      = b.registry ++ [mkEntry o sa hb hc] := rfl

/-- `Game._new_round` installs exactly the new round's entries: the wall
edges, the paddle, and the bricks, in that order, over a cleared registry. -/
lemma new_round_registry (g : GameState) (rc : RoundClass) :
    (Game.new_round g rc).ball.registry = roundRegistry g.nextRoundId rc := by
  simp only [Game.new_round, makeRound]
  rw [registry_foldl_add, add_collidable_registry, registry_foldl_add]
  simp [BallState.remove_all_collidable_objects, roundRegistry]

/-- Every entry of a freshly installed registry either belongs to the new
round instance or is the paddle. -/
lemma mem_roundRegistry (rid : Nat) (rc : RoundClass) (e : CollidableEntry)
    (he : e ∈ roundRegistry rid rc) :
    e.obj.roundOf = some rid ∨ e.obj = CollidableRef.paddleRef := by
  simp only [roundRegistry, List.mem_append, List.mem_map,
    List.mem_singleton] at he
  rcases he with (⟨i, _, rfl⟩ | rfl) | ⟨i, _, rfl⟩
  · exact Or.inl rfl
  · exact Or.inr rfl
  · exact Or.inl rfl

/-- C5: whenever `Game.update` observes that the current round is complete,
the round-transition step replaces the round by an instance of the round's
`next_round` class, and the ball's collidable registry — cleared by
`remove_all_collidable_objects` and then repopulated — ends up holding
exactly the new round's wall edges (with the wall speed adjust), the paddle
(with its bounce strategy) and the new round's bricks (with the brick speed
adjust and the collision callback); consequently no entry belonging to the
destroyed round instance survives the transition. -/
theorem C5_round_transition (g : GameState) (rc : RoundClass)
    (hc : g.round.complete = true) (hn : g.round.next_round = some rc) :
    (Game.update_round_stage g).1.round = makeRound rc g.nextRoundId
    ∧ (Game.update_round_stage g).1.ball.registry
        = roundRegistry g.nextRoundId rc
    ∧ ∀ e ∈ g.ball.registry, e.obj.roundOf = some g.round.id →
        g.round.id ≠ g.nextRoundId →
        e ∉ (Game.update_round_stage g).1.ball.registry := by
  have hstage : Game.update_round_stage g = (Game.new_round g rc,
      [Op.roundTransition]) := by
    simp [Game.update_round_stage, hc, hn]
  refine ⟨?_, ?_, ?_⟩
  · rw [hstage]; rfl
  · rw [hstage]; exact new_round_registry g rc
  · intro e _ hold hne hmem
    rw [hstage] at hmem
    rw [new_round_registry g rc] at hmem
    rcases mem_roundRegistry g.nextRoundId rc e hmem with h | h
    · rw [hold] at h
      exact hne (Option.some.injEq _ _ ▸ h)
    · rw [h] at hold
      exact Option.noConfusion hold

/-- C5 witness: the transition applied to the sample game whose first round
is complete; the old round-0 brick entry does not survive. -/
theorem C5_round_transition_witness :
    sampleGameComplete.round.complete = true
    ∧ (Game.update_round_stage sampleGameComplete).1.ball.registry
        = roundRegistry sampleGameComplete.nextRoundId sampleRound2
    ∧ mkEntry (CollidableRef.brickRef 0 0) BRICK_SPEED_ADJUST false true
        ∉ (Game.update_round_stage sampleGameComplete).1.ball.registry :=
  ⟨rfl,
   (C5_round_transition sampleGameComplete sampleRound2 rfl rfl).2.1,
   (C5_round_transition sampleGameComplete sampleRound2 rfl rfl).2.2
     (mkEntry (CollidableRef.brickRef 0 0) BRICK_SPEED_ADJUST false true)
     (by rw [show sampleGameComplete.ball.registry
               = roundRegistry 0 sampleRound1 from rfl]
         simp only [roundRegistry, List.mem_append, List.mem_map,
           List.mem_singleton, List.mem_range]
         exact Or.inr ⟨0, by decide, rfl⟩)
     rfl (by decide)⟩

/-- The event-handling loop emits exactly one input-application trace entry
per recognised key event, in order. -/
lemma handle_events_trace (evs : List GEvent) (g : GameState) :
    (Game.handle_events g evs).2
      = (evs.filter isKeyEvent).map Op.applyInput := by
  induction evs generalizing g with
  | nil => rfl
  | cons e rest ih =>
    cases e <;> simp [Game.handle_events, isKeyEvent, ih]

/-- Every trace entry of the event-handling loop is a marker. -/
lemma handle_events_trace_markers (evs : List GEvent) (g : GameState) :
    ((Game.handle_events g evs).2).filter isMarker
      = (evs.filter isKeyEvent).map Op.applyInput := by
  rw [handle_events_trace]
  refine List.filter_eq_self.mpr ?_
  intro o ho
  rcases List.mem_map.mp ho with ⟨e, _, rfl⟩
  rfl

/-- The brick-collision callback's trace contains no marker operations. -/
lemma on_brick_collide_trace_markers (g : GameState) (b : CollidableRef) :
    ((Game.on_brick_collide g b).2).filter isMarker = [] := rfl

/-- The ball-update stage contributes exactly one marker: the ball's
physics update. -/
lemma ball_update_trace_markers (g : GameState) (fi : FrameInput) :
    ((Game.ball_update g fi).2).filter isMarker = [Op.ballUpdate] := by
  unfold Game.ball_update
  rcases ha : g.ball.anchor with _ | off
  · rcases hc : fi.ballCollision with _ | i
    · by_cases hos : fi.ballOffScreen <;> simp [ha, hc, hos, isMarker]
    · rcases hg : g.ball.registry[i]? with _ | entry
      · by_cases hos : fi.ballOffScreen <;> simp [ha, hc, hg, hos, isMarker]
      · by_cases hoc : entry.has_on_collide <;>
          by_cases hos : fi.ballOffScreen <;>
          simp [ha, hc, hg, hoc, hos, Game.on_brick_collide, isMarker]
  · simp [ha, isMarker]

/-- The sprite-update stage contributes exactly the paddle update followed
by the ball update. -/
lemma update_sprites_trace_markers (g : GameState) (fi : FrameInput) :
    ((Game.update_sprites g fi).2).filter isMarker
      = [Op.paddleUpdate, Op.ballUpdate] := by
  unfold Game.update_sprites
  dsimp only
  rw [List.filter_append, List.filter_append, ball_update_trace_markers]
  by_cases h1 : ({ g with paddle := g.paddle.update } :
      GameState).paddle.visible <;>
    by_cases h2 : (Game.ball_update { g with paddle := g.paddle.update }
      fi).1.ball.visible <;>
    simp [h1, h2, isMarker]

/-- The round-transition stage contributes no marker operations. -/
lemma round_stage_trace_markers (g : GameState) :
    ((Game.update_round_stage g).2).filter isMarker = [] := by
  unfold Game.update_round_stage
  by_cases hc : g.round.complete
  · rcases g.round.next_round with _ | rc <;> simp [hc, isMarker]
  · simp [hc]

/-- The sequence-delegation stage contributes no marker operations. -/
lemma seq_stage_trace_markers (g : GameState) (now : Nat) :
    ((Game.update_sequence_stage g now).2).filter isMarker = [] := by
  unfold Game.update_sequence_stage
  rcases g.sequence with _ | s <;> simp [isMarker]

/-- The trace of a whole `Game.update`, restricted to the markers. -/
lemma game_update_trace_markers (g : GameState) (fi : FrameInput) :
    ((Game.update g fi).2).filter isMarker
      = (fi.events.filter isKeyEvent).map Op.applyInput
        ++ [Op.paddleUpdate, Op.ballUpdate, Op.updateLives] := by
  unfold Game.update
  dsimp only
  rw [List.filter_append, List.filter_append, List.filter_append,
    List.filter_append, round_stage_trace_markers, seq_stage_trace_markers,
    handle_events_trace_markers, update_sprites_trace_markers]
  simp [Game.update_lives, isMarker]

/-- C6: within every frame, the marker operations occur in exactly this
order: first each keyboard input event is applied to the paddle, then the
paddle's physics update runs, then the ball's physics update runs, then the
lives bookkeeping runs, and finally the frame is presented.  (All other
trace entries — blits, callbacks, the clock tick — are not markers.) -/
theorem C6_frame_order (cfg : ArkCfg) (g : Option GameState)
    (fi : FrameInput) :
    ((main_loop_iter cfg g fi).trace).filter isMarker
      = (fi.events.filter isKeyEvent).map Op.applyInput
        ++ [Op.paddleUpdate, Op.ballUpdate, Op.updateLives,
            Op.presentFrame] := by
  unfold main_loop_iter
  dsimp only
  rw [show ∀ (l1 l2 : List Op), (Op.clockTick :: (l1 ++ l2)).filter isMarker
        = l1.filter isMarker ++ l2.filter isMarker from
      fun l1 l2 => by simp [isMarker]]
  rw [game_update_trace_markers]
  simp [isMarker]

/-- C8: an iteration of `Arkanoid.main_loop` clears the `running` flag —
i.e. the loop terminates after that iteration instead of continuing to the
next frame — exactly when a QUIT event was received during the iteration or
the game's `over` flag is true after that iteration's update. -/
theorem C8_loop_exit_iff (cfg : ArkCfg) (g : Option GameState)
    (fi : FrameInput) :
    (main_loop_iter cfg g fi).running = false
      ↔ (hasQuitEvent fi.events = true
          ∨ (main_loop_iter cfg g fi).game.over = true) := by
  cases g with
  | none =>
    by_cases hq : hasQuitEvent fi.events <;>
      by_cases ho : (Game.update (Game.init cfg.round1 3 cfg.edgeWidth
        cfg.paddleWidth cfg.paddleHeight cfg.screenW fi.now) fi).1.over <;>
      simp [main_loop_iter, hq, ho]
  | some gg =>
    by_cases hq : hasQuitEvent fi.events <;>
      by_cases ho : (Game.update gg fi).1.over <;>
      simp [main_loop_iter, hq, ho]

/-- The brick-collision callback touches neither `over` nor `lives`. -/
lemma on_brick_collide_over_lives (g : GameState) (b : CollidableRef) :
    (Game.on_brick_collide g b).1.over = g.over
    ∧ (Game.on_brick_collide g b).1.lives = g.lives := ⟨rfl, rfl⟩

/-- The ball-update stage (including the collision and off-screen callbacks
it may invoke) touches neither `over` nor `lives`. -/
lemma ball_update_over_lives (g : GameState) (fi : FrameInput) :
    (Game.ball_update g fi).1.over = g.over
    ∧ (Game.ball_update g fi).1.lives = g.lives := by
  unfold Game.ball_update
  rcases ha : g.ball.anchor with _ | off
  · rcases hc : fi.ballCollision with _ | i
    · by_cases hos : fi.ballOffScreen <;>
        simp [ha, hc, hos, Game.off_screen]
    · rcases hg : g.ball.registry[i]? with _ | entry
      · by_cases hos : fi.ballOffScreen <;>
          simp [ha, hc, hg, hos, Game.off_screen]
      · by_cases hoc : entry.has_on_collide <;>
          by_cases hos : fi.ballOffScreen <;>
          simp [ha, hc, hg, hoc, hos, Game.on_brick_collide, Game.off_screen]
  · simp [ha]

/-- The event-handling loop touches neither `over` nor `lives`. -/
lemma handle_events_over_lives (evs : List GEvent) (g : GameState) :
    (Game.handle_events g evs).1.over = g.over
    ∧ (Game.handle_events g evs).1.lives = g.lives := by
  induction evs generalizing g with
  | nil => exact ⟨rfl, rfl⟩
  | cons e rest ih =>
    cases e <;> simpa [Game.handle_events] using ih _

/-- The sequence update touches neither `over` nor `lives`. -/
lemma seq_update_over_lives (g : GameState) (s : GameStartSequence)
    (now : Nat) :
    (GameStartSequence.update g s now).over = g.over
    ∧ (GameStartSequence.update g s now).lives = g.lives := by
  unfold GameStartSequence.update
  dsimp only
  constructor <;> split_ifs <;> rfl

/-- A whole `Game.update` frame touches neither `over` nor `lives`: no
operation reachable from it mutates them. -/
lemma game_update_over_lives (g : GameState) (fi : FrameInput) :
    (Game.update g fi).1.over = g.over
    ∧ (Game.update g fi).1.lives = g.lives := by
  unfold Game.update Game.update_sprites Game.update_lives
  dsimp only
  have h1 : (Game.update_round_stage g).1.over = g.over
      ∧ (Game.update_round_stage g).1.lives = g.lives := by
    unfold Game.update_round_stage
    by_cases hc : g.round.complete
    · rcases g.round.next_round with _ | rc <;>
        simp [hc, Game.new_round]
    · simp [hc]
  have h2 := fun gg => seq_update_over_lives gg
  have h3 := fun gg => handle_events_over_lives fi.events gg
  have h4 := fun gg => ball_update_over_lives gg fi
  set g1 := (Game.update_round_stage g).1
  have hseq : (Game.update_sequence_stage g1 fi.now).1.over = g1.over
      ∧ (Game.update_sequence_stage g1 fi.now).1.lives = g1.lives := by
    unfold Game.update_sequence_stage
    rcases hs : g1.sequence with _ | s
    · exact ⟨rfl, rfl⟩
    · exact seq_update_over_lives g1 s fi.now
  set g2 := (Game.update_sequence_stage g1 fi.now).1
  set g3 := (Game.handle_events g2 fi.events).1
  have hpad : ({ g3 with paddle := g3.paddle.update } : GameState).over
      = g3.over ∧ ({ g3 with paddle := g3.paddle.update } :
        GameState).lives = g3.lives := ⟨rfl, rfl⟩
  constructor
  · rw [(h4 _).1, hpad.1, (h3 g2).1, hseq.1, h1.1]
  · rw [(h4 _).2, hpad.2, (h3 g2).2, hseq.2, h1.2]

/-- Iterating `Game.update` over any schedule of frames touches neither
`over` nor `lives`. -/
lemma fold_update_over_lives (fis : List FrameInput) (g : GameState) :
    (fis.foldl (fun g fi => (Game.update g fi).1) g).over = g.over
    ∧ (fis.foldl (fun g fi => (Game.update g fi).1) g).lives = g.lives := by
  induction fis generalizing g with
  | nil => exact ⟨rfl, rfl⟩
  | cons fi rest ih =>
    constructor
    · simp only [List.foldl_cons]
      rw [(ih _).1, (game_update_over_lives g fi).1]
    · simp only [List.foldl_cons]
      rw [(ih _).2, (game_update_over_lives g fi).2]

/-- A fresh game starts with `over = False` and the given number of
lives. -/
lemma game_init_over_lives (rc : RoundClass) (lives : Nat)
    (eW pW pH sW : Int) (now : Nat) :
    (Game.init rc lives eW pW pH sW now).over = false
    ∧ (Game.init rc lives eW pW pH sW now).lives = lives := ⟨rfl, rfl⟩

/-- If the loop over a schedule of frames terminated on its own and the
game it carried (if any) had `over = false`, some processed frame carried a
QUIT event. -/
lemma runLoop_exit_has_quit (cfg : ArkCfg) :
    ∀ (fis : List FrameInput) (g : Option GameState),
      (∀ gg, g = some gg → gg.over = false) →
      (runLoop cfg g fis).2 = false →
      fis.any (fun fi => hasQuitEvent fi.events) = true := by
  intro fis
  induction fis with
  | nil =>
    intro g hg hrun
    simp [runLoop] at hrun
  | cons fi rest ih =>
    intro g hg hrun
    have hover : (main_loop_iter cfg g fi).game.over = false := by
      cases g with
      | none =>
        simpa [main_loop_iter] using
          (game_update_over_lives (Game.init cfg.round1 3 cfg.edgeWidth
            cfg.paddleWidth cfg.paddleHeight cfg.screenW fi.now) fi).1
      | some gg =>
        have hgg := hg gg rfl
        simpa [main_loop_iter, hgg] using
          (game_update_over_lives gg fi).1
    by_cases hq : hasQuitEvent fi.events
    · simp [hq]
    · have hrunning : (main_loop_iter cfg g fi).running = true := by
        have : (main_loop_iter cfg g fi).running
            = (if (main_loop_iter cfg g fi).game.over then false
               else if hasQuitEvent fi.events then false else true) := by
          cases g <;> rfl
        rw [this, hover]
        simp [hq]
      unfold runLoop at hrun
      simp only [hrunning, if_true] at hrun
      simp only [List.any_cons, hq, Bool.false_or]
      exact ih (some (main_loop_iter cfg g fi).game)
        (fun gg hgg => by rw [← Option.some.injEq _ _ |>.mp hgg]; exact hover)
        hrun

/-- C9: no operation reachable from `Game.update` or the callbacks the game
wires up ever mutates `over` or `lives`: over every schedule of frames a
fresh game keeps `over = False` and its initial lives, and consequently the
main loop can only terminate through a QUIT event. -/
theorem C9_over_lives_invariant (cfg : ArkCfg) (rc : RoundClass)
    (lives : Nat) (eW pW pH sW : Int) (now : Nat) (fis : List FrameInput) :
    ((fis.foldl (fun g fi => (Game.update g fi).1)
        (Game.init rc lives eW pW pH sW now)).over = false
      ∧ (fis.foldl (fun g fi => (Game.update g fi).1)
          (Game.init rc lives eW pW pH sW now)).lives = lives)
    ∧ ((runLoop cfg none fis).2 = false →
        fis.any (fun fi => hasQuitEvent fi.events) = true) := by
  constructor
  · constructor
    · rw [(fold_update_over_lives fis _).1]
      exact (game_init_over_lives rc lives eW pW pH sW now).1
    · rw [(fold_update_over_lives fis _).2]
      exact (game_init_over_lives rc lives eW pW pH sW now).2
  · exact runLoop_exit_has_quit cfg fis none (fun gg h => by cases h)

/-- C9 witness: the invariant applied to the sample configuration and a
one-frame schedule carrying a QUIT event, whose loop run does terminate. -/
theorem C9_over_lives_witness :
    (([quitFrame].foldl (fun g fi => (Game.update g fi).1)
        (Game.init sampleRound1 3 16 60 16 600 0)).over = false
      ∧ ([quitFrame].foldl (fun g fi => (Game.update g fi).1)
          (Game.init sampleRound1 3 16 60 16 600 0)).lives = 3)
    ∧ [quitFrame].any (fun fi => hasQuitEvent fi.events) = true :=
  ⟨(C9_over_lives_invariant sampleCfg sampleRound1 3 16 60 16 600 0
      [quitFrame]).1,
   (C9_over_lives_invariant sampleCfg sampleRound1 3 16 60 16 600 0
      [quitFrame]).2 (by decide)⟩

/-- One update step on an animating brick consumes the head of the pending
element sequence (creating the iterator first if needed). -/
lemma brick_update_on_cons (b : Brick) (x : Nat) (xs : List Nat)
    (hf : b.animateFlag = AnimFlag.on) (hs : seqOf b = x :: xs) :
    b.update = { b with image := x, animation := some xs } := by
  unfold Brick.update
  rw [hf]
  rcases ha : b.animation with _ | l
  · simp only [seqOf, ha, Option.getD_none] at hs
    simp [hs]
  · simp only [seqOf, ha, Option.getD_some] at hs
    simp [ha, hs]

/-- One update step on an animating brick with an exhausted sequence only
clears the animate flag (Python `StopIteration`); the image is untouched
and the exhausted iterator kept. -/
lemma brick_update_on_nil (b : Brick) (hf : b.animateFlag = AnimFlag.on)
    (hs : seqOf b = []) :
    b.update
      = { b with animateFlag := AnimFlag.done, animation := some [] } := by
  unfold Brick.update
  rw [hf]
  rcases ha : b.animation with _ | l
  · simp only [seqOf, ha, Option.getD_none] at hs
    simp [hs]
  · simp only [seqOf, ha, Option.getD_some] at hs
    simp [ha, hs]

/-- Updating a brick whose animate flag is not `True` does nothing. -/
lemma brick_update_not_on (b : Brick) (hf : b.animateFlag ≠ AnimFlag.on) :
    b.update = b := by
  unfold Brick.update
  rcases hx : b.animateFlag with _ | _ | _
  · rfl
  · exact absurd hx hf
  · rfl

/-- Stepping an animating brick `k+1` times lands on element `k` of the
pending sequence, with the iterator advanced past it. -/
lemma brickIter_on (k : Nat) : ∀ (b : Brick),
    b.animateFlag = AnimFlag.on → k < (seqOf b).length →
    brickIter (k + 1) b
      = { b with image := (seqOf b).getD k 0,
                 animation := some ((seqOf b).drop (k + 1)) } := by
  induction k with
  | zero =>
    intro b hf hk
    rcases hs : seqOf b with _ | ⟨x, xs⟩
    · rw [hs] at hk; simp at hk
    · show brickIter 0 b.update = _
      rw [brick_update_on_cons b x xs hf hs]
      rfl
  | succ k ih =>
    intro b hf hk
    rcases hs : seqOf b with _ | ⟨x, xs⟩
    · rw [hs] at hk; simp at hk
    · have hupd := brick_update_on_cons b x xs hf hs
      have hfl : (b.update).animateFlag = AnimFlag.on := by
        rw [hupd]; exact hf
      have hsq : seqOf b.update = xs := by rw [hupd]; simp [seqOf]
      have hk2 : k < (seqOf b.update).length := by
        rw [hsq]
        rw [hs] at hk
        simp only [List.length_cons] at hk
        exact Nat.lt_of_succ_lt_succ hk
      show brickIter (k + 1) b.update = _
      rw [ih b.update hfl hk2, hsq, hupd]
      simp [List.getD_cons_succ, List.drop_succ_cons]

/-- `brickIter` composes additively. -/
lemma brickIter_add (i j : Nat) : ∀ (b : Brick),
    brickIter (i + j) b = brickIter i (brickIter j b) := by
  induction j with
  | zero => intro b; rfl
  | succ j ih => intro b; exact ih b.update

/-- Updating a brick whose iterator is exhausted never changes the image
and keeps the iterator exhausted, whatever the animate flag. -/
lemma brick_update_exhausted (b : Brick) (ha : b.animation = some []) :
    b.update.image = b.image ∧ b.update.animation = some [] := by
  rcases hx : b.animateFlag with _ | _ | _
  · rw [brick_update_not_on b (by simp [hx])]
    exact ⟨rfl, ha⟩
  · have hs : seqOf b = [] := by simp [seqOf, ha]
    rw [brick_update_on_nil b hx hs]
    exact ⟨rfl, rfl⟩
  · rw [brick_update_not_on b (by simp [hx])]
    exact ⟨rfl, ha⟩

/-- Iterated updates on an exhausted brick leave the image unchanged. -/
lemma brickIter_exhausted (j : Nat) : ∀ (b : Brick),
    b.animation = some [] →
    (brickIter j b).image = b.image
    ∧ (brickIter j b).animation = some [] := by
  induction j with
  | zero => intro b ha; exact ⟨rfl, ha⟩
  | succ j ih =>
    intro b ha
    have h := brick_update_exhausted b ha
    have h2 := ih b.update h.2
    exact ⟨by show (brickIter j b.update).image = b.image
              rw [h2.1, h.1],
           h2.2⟩

/-- Any mix of further `update()` and `animate()` calls on an exhausted
brick leaves the image unchanged: `animate()` only re-sets the flag and the
exhausted iterator is never reset. -/
lemma applyBrickOps_exhausted (ops : List BrickOp) :
    ∀ (b : Brick), b.animation = some [] →
    (applyBrickOps ops b).image = b.image
    ∧ (applyBrickOps ops b).animation = some [] := by
  induction ops with
  | nil => intro b ha; exact ⟨rfl, ha⟩
  | cons op rest ih =>
    intro b ha
    cases op with
    | update =>
      have h := brick_update_exhausted b ha
      have h2 := ih b.update h.2
      exact ⟨by show (applyBrickOps rest b.update).image = b.image
                rw [h2.1, h.1],
             h2.2⟩
    | animate =>
      have h2 := ih b.animate ha
      exact ⟨by show (applyBrickOps rest b.animate).image = b.image
                rw [h2.1]
                rfl,
             h2.2⟩

/-- The last element of a sequence with an appended final element. -/
lemma getD_concat_last (l : List Nat) (a : Nat) :
    (l ++ [a]).getD l.length 0 = a := by
  induction l with
  | nil => rfl
  | cons x xs ih =>
    simp only [List.cons_append, List.length_cons, List.getD_cons_succ]
    exact ih

/-- C10: for every brick on which `animate()` has been called, repeated
`update()` calls step the image through the loaded silver image sequence
followed by the original colour image as the final element; once the
sequence is exhausted the image equals the original colour image, and every
subsequent `update()` — including after calling `animate()` again, since
the exhausted iterator is never reset — leaves the image unchanged. -/
theorem C10_brick_animation (colour : String) (value destroy_after : Nat)
    (pc : Option Nat) (img : Nat) (silver : List Nat) (k : Nat)
    (ops : List BrickOp) :
    (k < silver.length + 1 →
      (brickIter (k + 1)
        ((Brick.init colour value destroy_after pc img silver).animate)).image
        = (silver ++ [img]).getD k 0)
    ∧ (silver.length + 1 ≤ k →
      (brickIter k
        ((Brick.init colour value destroy_after pc img silver).animate)).image
        = img)
    ∧ (applyBrickOps ops (brickIter (silver.length + 1)
        ((Brick.init colour value destroy_after pc img
          silver).animate))).image = img := by
  set b0 := (Brick.init colour value destroy_after pc img silver).animate
    with hb0
  have hflag : b0.animateFlag = AnimFlag.on := rfl
  have hseq : seqOf b0 = silver ++ [img] := rfl
  have hlen : (seqOf b0).length = silver.length + 1 := by rw [hseq]; simp
  have hdrop : (silver ++ [img]).drop (silver.length + 1) = [] := by
    rw [show silver.length + 1 = (silver ++ [img]).length from by simp,
      List.drop_length]
  have hstate : brickIter (silver.length + 1) b0
      = { b0 with image := img, animation := some [] } := by
    have h := brickIter_on silver.length b0 hflag (by rw [hlen]; omega)
    rw [hseq] at h
    rw [h, getD_concat_last, hdrop]
  refine ⟨?_, ?_, ?_⟩
  · intro hk
    have h := brickIter_on k b0 hflag (by rw [hlen]; omega)
    rw [hseq] at h
    rw [h]
  · intro hk
    have hsplit : k = (k - (silver.length + 1)) + (silver.length + 1) := by
      omega
    rw [hsplit, brickIter_add, hstate]
    exact (brickIter_exhausted (k - (silver.length + 1)) _ rfl).1
  · rw [hstate]
    exact (applyBrickOps_exhausted ops _ rfl).1

/-- C10 witness: the sample two-frame silver sequence with original image
101: the second update shows element 8, update five (past exhaustion at
three) still shows 101, and re-animating after exhaustion changes
nothing. -/
theorem C10_brick_animation_witness :
    (1 < [7, 8].length + 1
     ∧ (brickIter 2
         ((Brick.init "green" 80 1 none 101 [7, 8]).animate)).image = 8)
    ∧ (brickIter 5
        ((Brick.init "green" 80 1 none 101 [7, 8]).animate)).image = 101
    ∧ (applyBrickOps [BrickOp.animate, BrickOp.update]
        (brickIter 3
          ((Brick.init "green" 80 1 none 101 [7, 8]).animate))).image
        = 101 :=
  ⟨⟨by decide,
    (C10_brick_animation "green" 80 1 none 101 [7, 8] 1
      [BrickOp.animate, BrickOp.update]).1 (by decide)⟩,
   (C10_brick_animation "green" 80 1 none 101 [7, 8] 5
      [BrickOp.animate, BrickOp.update]).2.1 (by decide),
   (C10_brick_animation "green" 80 1 none 101 [7, 8] 5
      [BrickOp.animate, BrickOp.update]).2.2⟩

end Arkanoid
